import Mathlib

-- Batteries marks the `Rat` arithmetic irreducible; restore the default
-- reducibility so that concrete runs of the state machine reduce.
set_option allowUnsafeReducibility true
attribute [semireducible] Rat.add Rat.sub Rat.mul Rat.inv Rat.ofScientific

/-!
Shallow embedding of the exercise state machine of
`src/services/exerciseService.ts` (fit-form-focus).

JS numbers are modelled as rationals (`ℚ`), rep/set counters as integers
(`ℤ`), timestamps in milliseconds as rationals.  `Date.now()` is threaded
through as an explicit `now` parameter.  The geometry helpers of
`poseDetectionService` are not part of the sources; they are external
collaborators and are modelled abstractly from the spec (see `Geom`).
Display-only catalog fields (`formInstructions`, `musclesTargeted`,
`primaryLandmarks`) are never consumed by the state machine and are omitted.
-/

namespace FitForm

/-- A 2-D landmark position (pixel coordinates) as consumed by the
evaluators via `.x` / `.y`. -/
structure Keypoint where
  x : ℚ
  y : ℚ
deriving DecidableEq

/-- Modelled from the spec: a `Pose` is a mapping from landmark name to a
2-D point; landmarks may be absent (occlusion). -/
def Pose : Type := List (String × Keypoint)

/-- Modelled from the spec: `getKeypoint` looks a landmark up by name in
the pose mapping, `none` when absent. -/
def getKeypoint (pose : Pose) (name : String) : Option Keypoint :=
  List.lookup name pose

/-- Modelled from the spec: the geometry helpers of `poseDetectionService`
(`calculateAngle` — the angle in degrees at the middle vertex, and
`calculateVerticalDistance` — a signed pixel offset) are external
collaborators specified only at their interface; they are kept abstract as
a record of functions. -/
structure Geom where
  calculateAngle : Keypoint → Keypoint → Keypoint → ℚ
  calculateVerticalDistance : Keypoint → Keypoint → ℚ

/-- The `ExerciseType` enum of `exerciseService.ts`. -/
inductive ExerciseType where
  | SQUAT
  | PUSHUP
  | BICEP_CURL
  | SHOULDER_PRESS
  | NONE
deriving DecidableEq

/-- The `RepState` enum of `exerciseService.ts` (COUNTING is declared but never
assigned by any evaluator). -/
inductive RepState where
  | STARTING
  | UP
  | DOWN
  | COUNTING
  | RESTING
  | INCORRECT_FORM
deriving DecidableEq

/-- The nested `thresholds` record of `ExerciseSettings`. -/
structure Thresholds where
  upAngle : ℚ
  downAngle : ℚ
deriving DecidableEq

/-- Embedding of `ExerciseSettings` (display-only string lists omitted, see header). -/
structure ExerciseSettings where
  name : String
  type : ExerciseType
  targetReps : ℤ
  restBetweenSets : ℤ
  sets : ℤ
  thresholds : Thresholds
deriving DecidableEq

/-- The `EXERCISES` catalog record, as a function on the closed enum. -/
def EXERCISES : ExerciseType → ExerciseSettings
  | ExerciseType.SQUAT =>
      { name := "Squat", type := ExerciseType.SQUAT, targetReps := 10,
        restBetweenSets := 60, sets := 3,
        thresholds := { upAngle := 160, downAngle := 90 } }
  | ExerciseType.PUSHUP =>
      { name := "Push-up", type := ExerciseType.PUSHUP, targetReps := 12,
        restBetweenSets := 60, sets := 3,
        thresholds := { upAngle := 160, downAngle := 90 } }
  | ExerciseType.BICEP_CURL =>
      { name := "Bicep Curl", type := ExerciseType.BICEP_CURL, targetReps := 12,
        restBetweenSets := 45, sets := 3,
        thresholds := { upAngle := 45, downAngle := 160 } }
  | ExerciseType.SHOULDER_PRESS =>
      { name := "Shoulder Press", type := ExerciseType.SHOULDER_PRESS, targetReps := 10,
        restBetweenSets := 60, sets := 3,
        thresholds := { upAngle := 170, downAngle := 90 } }
  | ExerciseType.NONE =>
      { name := "None", type := ExerciseType.NONE, targetReps := 0,
        restBetweenSets := 0, sets := 0,
        thresholds := { upAngle := 0, downAngle := 0 } }

/-- The `ExerciseState` interface of `exerciseService.ts` (lines 134-142).
Note: the source interface has no `formIssues` field. -/
structure ExerciseState where
  type : ExerciseType
  repCount : ℤ
  setCount : ℤ
  repState : RepState
  formFeedback : List String
  lastRepTimestamp : ℚ
  formCorrect : Bool
deriving DecidableEq

/-- Embedding of `initExerciseState`, with `Date.now()` passed in as `now`. -/
def initExerciseState (type : ExerciseType) (now : ℚ) : ExerciseState :=
  { type := type, repCount := 0, setCount := 1, repState := RepState.STARTING,
    formFeedback := [], lastRepTimestamp := now, formCorrect := true }

/-- JavaScript `Math.round`: round half toward positive infinity. -/
def jsRound (q : ℚ) : ℤ := ⌊q + 1/2⌋

/-- The rep-completion block duplicated verbatim in all four evaluators
(e.g. lines 307-322 of `processSquat`): increment `repCount`, stamp the
time, and on `repCount >= targetReps` advance/clamp the set counter and
enter RESTING.  The caller has already set the post-rep `repState`. -/
def completeRep (now : ℚ) (settings : ExerciseSettings) (state : ExerciseState) :
    ExerciseState :=
  let state := { state with repCount := state.repCount + 1, lastRepTimestamp := now }
  if state.repCount ≥ settings.targetReps then
    let state := { state with setCount := state.setCount + 1, repCount := 0,
                              repState := RepState.RESTING }
    if state.setCount > settings.sets then
      { state with setCount := settings.sets,
                   formFeedback := state.formFeedback ++ ["Workout complete! Great job!"] }
    else
      { state with formFeedback := state.formFeedback ++
          ["Set " ++ toString (state.setCount - 1) ++ " complete! Rest for " ++
           toString settings.restBetweenSets ++ " seconds."] }
  else state

/-- The RESTING case duplicated verbatim in all four evaluators (e.g.
lines 326-335 of `processSquat`): time-gated return to STARTING, else a
rounded countdown message. -/
def restStep (now : ℚ) (settings : ExerciseSettings) (state : ExerciseState) :
    ExerciseState :=
  let restTime := (now - state.lastRepTimestamp) / 1000
  if restTime ≥ (settings.restBetweenSets : ℚ) then
    { state with repState := RepState.STARTING,
                 formFeedback := state.formFeedback ++
                   ["Starting set " ++ toString state.setCount] }
  else
    { state with formFeedback := state.formFeedback ++
        ["Rest: " ++ toString (jsRound ((settings.restBetweenSets : ℚ) - restTime)) ++
         "s remaining"] }

/-- The squat form-check section (lines 257-278): back-alignment check
(only when a left shoulder is visible; hip and knee are the same lookups
already known present) and knee-over-toes check.  Returns the violation
messages in source order; `formCorrect` ends up false exactly when this
list is non-empty. -/
def squatViolations (g : Geom) (pose : Pose)
    (leftHip leftKnee leftAnkle : Keypoint) : List String :=
  (match getKeypoint pose "left_shoulder" with
   | some shoulder =>
       if g.calculateAngle shoulder leftHip leftKnee < 160 then
         ["Keep your back straighter"]
       else []
   | none => []) ++
  (if leftKnee.x < leftAnkle.x - 50 then
     ["Knees too far forward, shift weight to heels"]
   else [])

/-- The pushup form-check section (lines 364-375): body-alignment check,
run only when shoulder, hip and knee are all visible. -/
def pushupViolations (g : Geom) (pose : Pose) (leftShoulder : Keypoint) :
    List String :=
  match getKeypoint pose "left_hip", getKeypoint pose "left_knee" with
  | some hip, some knee =>
      if |g.calculateAngle leftShoulder hip knee - 180| > 15 then
        ["Keep your body straight"]
      else []
  | _, _ => []

/-- The bicep-curl form-check section (lines 461-472): elbow horizontal
drift and shoulder vertical movement. -/
def curlViolations (g : Geom) (rightShoulder rightElbow : Keypoint) :
    List String :=
  (if rightElbow.x > rightShoulder.x + 30 then
     ["Keep your elbows close to your body"]
   else []) ++
  (if |g.calculateVerticalDistance rightShoulder rightElbow| > 40 then
     ["Minimize shoulder movement, focus on elbow flexion"]
   else [])

/-- The shoulder-press form-check section (lines 561-565): press-direction
check on the wrist. -/
def pressViolations (rightElbow rightWrist : Keypoint) : List String :=
  if rightWrist.x < rightElbow.x - 20 then ["Press directly upward"] else []

/-- The form-gate / recovery / rep state machine shared verbatim by
`processSquat` (lines 280-341) and `processPushup` (lines 377-438), with
the tracked joint angle and this frame's violation messages already
computed: after recording the violations, if form broke mid-rep force
INCORRECT_FORM; on recovery pick DOWN/UP by `angle < downAngle`; then
STARTING|UP → DOWN when `angle < downAngle`, and DOWN → UP (rep counted)
when `angle > upAngle`. -/
def extensionBody (now : ℚ) (angle : ℚ) (vs : List String)
    (settings : ExerciseSettings) (state : ExerciseState) : ExerciseState :=
  let state := { state with formFeedback := state.formFeedback ++ vs,
                            formCorrect := state.formCorrect && vs.isEmpty }
  if state.formCorrect = false ∧ state.repState ≠ RepState.INCORRECT_FORM ∧
     state.repState ≠ RepState.RESTING ∧ state.repState ≠ RepState.STARTING then
    { state with repState := RepState.INCORRECT_FORM,
                 formFeedback := state.formFeedback ++ ["Fix your form to continue"] }
  else
    let state :=
      if state.formCorrect = true ∧ state.repState = RepState.INCORRECT_FORM then
        { state with
            repState := if angle < settings.thresholds.downAngle then
                          RepState.DOWN else RepState.UP,
            formFeedback := state.formFeedback ++ ["Good form, continue your exercise"] }
      else state
    match state.repState with
    | RepState.STARTING | RepState.UP =>
        if angle < settings.thresholds.downAngle then
          { state with repState := RepState.DOWN }
        else state
    | RepState.DOWN =>
        if angle > settings.thresholds.upAngle then
          completeRep now settings { state with repState := RepState.UP }
        else state
    | RepState.RESTING => restStep now settings state
    | RepState.INCORRECT_FORM => state
    | RepState.COUNTING => state

/-- The same machine with the bicep-curl polarity (`processBicepCurl`,
lines 474-534): UP is the contracted position, recovery picks UP by
`angle < upAngle`, STARTING|DOWN → UP when `angle < upAngle`, and
UP → DOWN (rep counted) when `angle > downAngle`. -/
def contractionBody (now : ℚ) (angle : ℚ) (vs : List String)
    (settings : ExerciseSettings) (state : ExerciseState) : ExerciseState :=
  let state := { state with formFeedback := state.formFeedback ++ vs,
                            formCorrect := state.formCorrect && vs.isEmpty }
  if state.formCorrect = false ∧ state.repState ≠ RepState.INCORRECT_FORM ∧
     state.repState ≠ RepState.RESTING ∧ state.repState ≠ RepState.STARTING then
    { state with repState := RepState.INCORRECT_FORM,
                 formFeedback := state.formFeedback ++ ["Fix your form to continue"] }
  else
    let state :=
      if state.formCorrect = true ∧ state.repState = RepState.INCORRECT_FORM then
        { state with
            repState := if angle < settings.thresholds.upAngle then
                          RepState.UP else RepState.DOWN,
            formFeedback := state.formFeedback ++ ["Good form, continue your exercise"] }
      else state
    match state.repState with
    | RepState.STARTING | RepState.DOWN =>
        if angle < settings.thresholds.upAngle then
          { state with repState := RepState.UP }
        else state
    | RepState.UP =>
        if angle > settings.thresholds.downAngle then
          completeRep now settings { state with repState := RepState.DOWN }
        else state
    | RepState.RESTING => restStep now settings state
    | RepState.INCORRECT_FORM => state
    | RepState.COUNTING => state

/-- The same machine with the shoulder-press conditions
(`processShoulderPress`, lines 567-627): recovery picks UP by the wrist
being at least 100px above the shoulder; STARTING|DOWN → UP needs
`angle > upAngle` and `wvp < -100`; UP → DOWN (rep counted) needs
`angle < downAngle` and `wvp > -50`. -/
def pressBody (now : ℚ) (angle wvp : ℚ) (vs : List String)
    (settings : ExerciseSettings) (state : ExerciseState) : ExerciseState :=
  let state := { state with formFeedback := state.formFeedback ++ vs,
                            formCorrect := state.formCorrect && vs.isEmpty }
  if state.formCorrect = false ∧ state.repState ≠ RepState.INCORRECT_FORM ∧
     state.repState ≠ RepState.RESTING ∧ state.repState ≠ RepState.STARTING then
    { state with repState := RepState.INCORRECT_FORM,
                 formFeedback := state.formFeedback ++ ["Fix your form to continue"] }
  else
    let state :=
      if state.formCorrect = true ∧ state.repState = RepState.INCORRECT_FORM then
        { state with
            repState := if wvp < -100 then RepState.UP else RepState.DOWN,
            formFeedback := state.formFeedback ++ ["Good form, continue your exercise"] }
      else state
    match state.repState with
    | RepState.STARTING | RepState.DOWN =>
        if angle > settings.thresholds.upAngle ∧ wvp < -100 then
          { state with repState := RepState.UP }
        else state
    | RepState.UP =>
        if angle < settings.thresholds.downAngle ∧ wvp > -50 then
          completeRep now settings { state with repState := RepState.DOWN }
        else state
    | RepState.RESTING => restStep now settings state
    | RepState.INCORRECT_FORM => state
    | RepState.COUNTING => state

/-- Embedding of `processSquat` (lines 238-343): guard the leg landmarks, compute the
hip-knee-ankle angle and the form violations, then run the machine. -/
def processSquat (g : Geom) (now : ℚ) (state : ExerciseState) (pose : Pose)
    (settings : ExerciseSettings) : ExerciseState :=
  match getKeypoint pose "left_hip", getKeypoint pose "left_knee",
        getKeypoint pose "left_ankle" with
  | some leftHip, some leftKnee, some leftAnkle =>
      extensionBody now (g.calculateAngle leftHip leftKnee leftAnkle)
        (squatViolations g pose leftHip leftKnee leftAnkle) settings state
  | _, _, _ =>
      { state with formFeedback := state.formFeedback ++ ["Cannot detect legs clearly"],
                   formCorrect := false }

/-- Embedding of `processPushup` (lines 346-440): guard the left-arm landmarks, compute
the shoulder-elbow-wrist angle and the form violations, run the machine. -/
def processPushup (g : Geom) (now : ℚ) (state : ExerciseState) (pose : Pose)
    (settings : ExerciseSettings) : ExerciseState :=
  match getKeypoint pose "left_shoulder", getKeypoint pose "left_elbow",
        getKeypoint pose "left_wrist" with
  | some leftShoulder, some leftElbow, some leftWrist =>
      extensionBody now (g.calculateAngle leftShoulder leftElbow leftWrist)
        (pushupViolations g pose leftShoulder) settings state
  | _, _, _ =>
      { state with formFeedback := state.formFeedback ++ ["Cannot detect arms clearly"],
                   formCorrect := false }

/-- Embedding of `processBicepCurl` (lines 443-537): guard the right-arm landmarks,
compute the elbow angle and the form violations, run the machine. -/
def processBicepCurl (g : Geom) (now : ℚ) (state : ExerciseState) (pose : Pose)
    (settings : ExerciseSettings) : ExerciseState :=
  match getKeypoint pose "right_shoulder", getKeypoint pose "right_elbow",
        getKeypoint pose "right_wrist" with
  | some rightShoulder, some rightElbow, some rightWrist =>
      contractionBody now (g.calculateAngle rightShoulder rightElbow rightWrist)
        (curlViolations g rightShoulder rightElbow) settings state
  | _, _, _ =>
      { state with formFeedback := state.formFeedback ++ ["Cannot detect arms clearly"],
                   formCorrect := false }

/-- Embedding of `processShoulderPress` (lines 540-630): guard the right-arm landmarks,
compute the elbow angle and the wrist-over-shoulder vertical offset and
the form violations, run the machine. -/
def processShoulderPress (g : Geom) (now : ℚ) (state : ExerciseState) (pose : Pose)
    (settings : ExerciseSettings) : ExerciseState :=
  match getKeypoint pose "right_shoulder", getKeypoint pose "right_elbow",
        getKeypoint pose "right_wrist" with
  | some rightShoulder, some rightElbow, some rightWrist =>
      pressBody now (g.calculateAngle rightShoulder rightElbow rightWrist)
        (g.calculateVerticalDistance rightWrist rightShoulder)
        (pressViolations rightElbow rightWrist) settings state
  | _, _, _ =>
      { state with formFeedback := state.formFeedback ++ ["Cannot detect arms clearly"],
                   formCorrect := false }

/-- Embedding of `processExerciseState` (lines 203-235): no-op on absent pose or NONE,
otherwise clear feedback, reset `formCorrect`, look the catalog entry up
and dispatch on the exercise type. -/
def processExerciseState (g : Geom) (now : ℚ) (currentState : ExerciseState)
    (pose : Option Pose) : ExerciseState :=
  match pose with
  | none => currentState
  | some p =>
    if currentState.type = ExerciseType.NONE then currentState
    else
      let newState := { currentState with formFeedback := [], formCorrect := true }
      let exerciseSettings := EXERCISES currentState.type
      match currentState.type with
      | ExerciseType.SQUAT => processSquat g now newState p exerciseSettings
      | ExerciseType.PUSHUP => processPushup g now newState p exerciseSettings
      | ExerciseType.BICEP_CURL => processBicepCurl g now newState p exerciseSettings
      | ExerciseType.SHOULDER_PRESS => processShoulderPress g now newState p exerciseSettings
      | ExerciseType.NONE => newState

/-- Which landmarks an evaluator requires before doing anything (the
early-return guards at lines 248, 356, 453, 550). -/
def requiredPresent (t : ExerciseType) (pose : Pose) : Bool :=
  match t with
  | ExerciseType.SQUAT =>
      (getKeypoint pose "left_hip").isSome && (getKeypoint pose "left_knee").isSome &&
      (getKeypoint pose "left_ankle").isSome
  | ExerciseType.PUSHUP =>
      (getKeypoint pose "left_shoulder").isSome && (getKeypoint pose "left_elbow").isSome &&
      (getKeypoint pose "left_wrist").isSome
  | ExerciseType.BICEP_CURL =>
      (getKeypoint pose "right_shoulder").isSome && (getKeypoint pose "right_elbow").isSome &&
      (getKeypoint pose "right_wrist").isSome
  | ExerciseType.SHOULDER_PRESS =>
      (getKeypoint pose "right_shoulder").isSome && (getKeypoint pose "right_elbow").isSome &&
      (getKeypoint pose "right_wrist").isSome
  | ExerciseType.NONE => true

/-- The "cannot detect clearly" message each evaluator emits on a missing
required landmark. -/
def cannotDetectMsg (t : ExerciseType) : String :=
  match t with
  | ExerciseType.SQUAT => "Cannot detect legs clearly"
  | _ => "Cannot detect arms clearly"

/-- The violation-message list of the evaluator selected by `t`, for a pose
whose required landmarks are present (otherwise `[]`). -/
def violationsOf (g : Geom) (t : ExerciseType) (pose : Pose) : List String :=
  match t with
  | ExerciseType.SQUAT =>
      match getKeypoint pose "left_hip", getKeypoint pose "left_knee",
            getKeypoint pose "left_ankle" with
      | some h, some k, some a => squatViolations g pose h k a
      | _, _, _ => []
  | ExerciseType.PUSHUP =>
      match getKeypoint pose "left_shoulder" with
      | some s => pushupViolations g pose s
      | none => []
  | ExerciseType.BICEP_CURL =>
      match getKeypoint pose "right_shoulder", getKeypoint pose "right_elbow" with
      | some s, some e => curlViolations g s e
      | _, _ => []
  | ExerciseType.SHOULDER_PRESS =>
      match getKeypoint pose "right_elbow", getKeypoint pose "right_wrist" with
      | some e, some w => pressViolations e w
      | _, _ => []
  | ExerciseType.NONE => []

/-- The UP/DOWN state the evaluator selected by `t` re-enters after an
INCORRECT_FORM recovery (lines 289-293, 386-390, 483-487, 576-580, with
the catalog thresholds substituted). -/
def recoveryChoice (g : Geom) (t : ExerciseType) (pose : Pose) : RepState :=
  match t with
  | ExerciseType.SQUAT =>
      match getKeypoint pose "left_hip", getKeypoint pose "left_knee",
            getKeypoint pose "left_ankle" with
      | some h, some k, some a =>
          if g.calculateAngle h k a < (EXERCISES ExerciseType.SQUAT).thresholds.downAngle
          then RepState.DOWN else RepState.UP
      | _, _, _ => RepState.INCORRECT_FORM
  | ExerciseType.PUSHUP =>
      match getKeypoint pose "left_shoulder", getKeypoint pose "left_elbow",
            getKeypoint pose "left_wrist" with
      | some s, some e, some w =>
          if g.calculateAngle s e w < (EXERCISES ExerciseType.PUSHUP).thresholds.downAngle
          then RepState.DOWN else RepState.UP
      | _, _, _ => RepState.INCORRECT_FORM
  | ExerciseType.BICEP_CURL =>
      match getKeypoint pose "right_shoulder", getKeypoint pose "right_elbow",
            getKeypoint pose "right_wrist" with
      | some s, some e, some w =>
          if g.calculateAngle s e w < (EXERCISES ExerciseType.BICEP_CURL).thresholds.upAngle
          then RepState.UP else RepState.DOWN
      | _, _, _ => RepState.INCORRECT_FORM
  | ExerciseType.SHOULDER_PRESS =>
      match getKeypoint pose "right_shoulder", getKeypoint pose "right_wrist" with
      | some s, some w =>
          if g.calculateVerticalDistance w s < -100 then RepState.UP else RepState.DOWN
      | _, _ => RepState.INCORRECT_FORM
  | ExerciseType.NONE => RepState.INCORRECT_FORM

/-- A concrete geometry used to instantiate theorems on closed inputs: the
angle at a triple is the third point's y-coordinate, the vertical offset is
the difference of y-coordinates. -/
def gW : Geom :=
  { calculateAngle := fun _ _ c => c.y,
    calculateVerticalDistance := fun p q => p.y - q.y }

/-- Shorthand keypoint constructor for concrete poses. -/
def kp (x y : ℚ) : Keypoint := { x := x, y := y }

/-- A squat pose with all form checks passing and hip-knee-ankle angle `a`
under `gW` (the back angle evaluates to 170, the knee stays over the
ankle). -/
def poseSquatOk (a : ℚ) : Pose :=
  [("left_hip", kp 0 0), ("left_knee", kp 0 170), ("left_ankle", kp 0 a),
   ("left_shoulder", kp 0 0)]

/-- A squat pose with the left ankle missing. -/
def poseSquatMissing : Pose := [("left_hip", kp 0 0), ("left_knee", kp 0 170)]

/-- A bicep-curl pose whose right elbow drifted 40px right of the shoulder
(only the elbow-drift check fires under `gW`). -/
def poseCurlDrift : Pose :=
  [("right_shoulder", kp 0 0), ("right_elbow", kp 40 0), ("right_wrist", kp 0 100)]

/-- A bicep-curl pose passing every form check under `gW`, with elbow angle
100 (between the curl thresholds, so an UP state stays UP). -/
def poseCurlOk : Pose :=
  [("right_shoulder", kp 0 0), ("right_elbow", kp 0 0), ("right_wrist", kp 0 100)]

/-- Concrete input states used by the closed instantiations below. -/
def stC1 : ExerciseState :=
  { type := ExerciseType.BICEP_CURL, repCount := 2, setCount := 1, repState := RepState.UP,
    formFeedback := [], lastRepTimestamp := 0, formCorrect := true }

def stC2 : ExerciseState :=
  { type := ExerciseType.SQUAT, repCount := 0, setCount := 1,
    repState := RepState.INCORRECT_FORM, formFeedback := [], lastRepTimestamp := 0,
    formCorrect := true }

def stC3 : ExerciseState :=
  { type := ExerciseType.SQUAT, repCount := 3, setCount := 2, repState := RepState.UP,
    formFeedback := ["old feedback"], lastRepTimestamp := 5, formCorrect := true }

def stC4 : ExerciseState :=
  { type := ExerciseType.SQUAT, repCount := 0, setCount := 2, repState := RepState.DOWN,
    formFeedback := [], lastRepTimestamp := 0, formCorrect := true }

def stC5 : ExerciseState :=
  { type := ExerciseType.SQUAT, repCount := 4, setCount := 1, repState := RepState.DOWN,
    formFeedback := [], lastRepTimestamp := 0, formCorrect := true }

def stC6 : ExerciseState :=
  { type := ExerciseType.SQUAT, repCount := 0, setCount := 2, repState := RepState.RESTING,
    formFeedback := [], lastRepTimestamp := 0, formCorrect := true }

def stC8 : ExerciseState :=
  { type := ExerciseType.BICEP_CURL, repCount := 0, setCount := 1, repState := RepState.DOWN,
    formFeedback := [], lastRepTimestamp := 0, formCorrect := true }

def stC8cex : ExerciseState :=
  { type := ExerciseType.BICEP_CURL, repCount := 0, setCount := 1, repState := RepState.UP,
    formFeedback := [], lastRepTimestamp := 0, formCorrect := false }

def stC10 : ExerciseState :=
  { type := ExerciseType.SQUAT, repCount := 0, setCount := 1, repState := RepState.STARTING,
    formFeedback := [], lastRepTimestamp := 0, formCorrect := true }

theorem restStep_setCount (now : ℚ) (settings : ExerciseSettings) (st : ExerciseState) :
    (restStep now settings st).setCount = st.setCount := by
  simp only [restStep]; split <;> rfl

theorem restStep_repCount (now : ℚ) (settings : ExerciseSettings) (st : ExerciseState) :
    (restStep now settings st).repCount = st.repCount := by
  simp only [restStep]; split <;> rfl

theorem restStep_repState (now : ℚ) (settings : ExerciseSettings) (st : ExerciseState) :
    (restStep now settings st).repState = RepState.STARTING ∨
    (restStep now settings st).repState = st.repState := by
  simp only [restStep]; split
  · exact Or.inl rfl
  · exact Or.inr rfl

theorem completeRep_setCount (now : ℚ) (settings : ExerciseSettings) (st : ExerciseState)
    (h : st.setCount ≤ settings.sets) :
    st.setCount ≤ (completeRep now settings st).setCount ∧
    (completeRep now settings st).setCount ≤ settings.sets := by
  simp only [completeRep]
  repeat' split
  all_goals simp
  all_goals omega

theorem completeRep_repCount (now : ℚ) (settings : ExerciseSettings) (st : ExerciseState)
    (h0 : 0 ≤ st.repCount) (h1 : st.repCount ≤ settings.targetReps - 1) :
    0 ≤ (completeRep now settings st).repCount ∧
    (completeRep now settings st).repCount ≤ settings.targetReps - 1 ∧
    (completeRep now settings st).repCount ≤ st.repCount + 1 ∧
    ((completeRep now settings st).repCount = st.repCount ∨
     (completeRep now settings st).repCount = st.repCount + 1 ∨
     (completeRep now settings st).repCount = 0) := by
  simp only [completeRep]
  repeat' split
  all_goals simp
  all_goals omega

theorem completeRep_repState (now : ℚ) (settings : ExerciseSettings) (st : ExerciseState) :
    (completeRep now settings st).repState = RepState.RESTING ∨
    (completeRep now settings st).repState = st.repState := by
  simp only [completeRep]
  repeat' split
  all_goals simp


theorem extensionBody_setCount (now angle : ℚ) (vs : List String)
    (settings : ExerciseSettings) (st : ExerciseState) (h : st.setCount ≤ settings.sets) :
    st.setCount ≤ (extensionBody now angle vs settings st).setCount ∧
    (extensionBody now angle vs settings st).setCount ≤ settings.sets := by
  simp only [extensionBody]
  repeat' split
  all_goals first
    | exact completeRep_setCount now settings _ h
    | (rw [restStep_setCount]; exact ⟨le_refl _, h⟩)
    | exact ⟨le_refl _, h⟩

theorem contractionBody_setCount (now angle : ℚ) (vs : List String)
    (settings : ExerciseSettings) (st : ExerciseState) (h : st.setCount ≤ settings.sets) :
    st.setCount ≤ (contractionBody now angle vs settings st).setCount ∧
    (contractionBody now angle vs settings st).setCount ≤ settings.sets := by
  simp only [contractionBody]
  repeat' split
  all_goals first
    | exact completeRep_setCount now settings _ h
    | (rw [restStep_setCount]; exact ⟨le_refl _, h⟩)
    | exact ⟨le_refl _, h⟩

theorem pressBody_setCount (now angle wvp : ℚ) (vs : List String)
    (settings : ExerciseSettings) (st : ExerciseState) (h : st.setCount ≤ settings.sets) :
    st.setCount ≤ (pressBody now angle wvp vs settings st).setCount ∧
    (pressBody now angle wvp vs settings st).setCount ≤ settings.sets := by
  simp only [pressBody]
  repeat' split
  all_goals first
    | exact completeRep_setCount now settings _ h
    | (rw [restStep_setCount]; exact ⟨le_refl _, h⟩)
    | exact ⟨le_refl _, h⟩

theorem extensionBody_repCount (now angle : ℚ) (vs : List String)
    (settings : ExerciseSettings) (st : ExerciseState)
    (h0 : 0 ≤ st.repCount) (h1 : st.repCount ≤ settings.targetReps - 1) :
    0 ≤ (extensionBody now angle vs settings st).repCount ∧
    (extensionBody now angle vs settings st).repCount ≤ settings.targetReps - 1 ∧
    (extensionBody now angle vs settings st).repCount ≤ st.repCount + 1 ∧
    ((extensionBody now angle vs settings st).repCount = st.repCount ∨
     (extensionBody now angle vs settings st).repCount = st.repCount + 1 ∨
     (extensionBody now angle vs settings st).repCount = 0) := by
  simp only [extensionBody]
  repeat' split
  all_goals first
    | exact completeRep_repCount now settings _ h0 h1
    | (rw [restStep_repCount];
       exact ⟨h0, h1, by change st.repCount ≤ st.repCount + 1; omega, Or.inl rfl⟩)
    | exact ⟨h0, h1, by change st.repCount ≤ st.repCount + 1; omega, Or.inl rfl⟩


theorem contractionBody_repCount (now angle : ℚ) (vs : List String)
    (settings : ExerciseSettings) (st : ExerciseState)
    (h0 : 0 ≤ st.repCount) (h1 : st.repCount ≤ settings.targetReps - 1) :
    0 ≤ (contractionBody now angle vs settings st).repCount ∧
    (contractionBody now angle vs settings st).repCount ≤ settings.targetReps - 1 ∧
    (contractionBody now angle vs settings st).repCount ≤ st.repCount + 1 ∧
    ((contractionBody now angle vs settings st).repCount = st.repCount ∨
     (contractionBody now angle vs settings st).repCount = st.repCount + 1 ∨
     (contractionBody now angle vs settings st).repCount = 0) := by
  simp only [contractionBody]
  repeat' split
  all_goals first
    | exact completeRep_repCount now settings _ h0 h1
    | (rw [restStep_repCount];
       exact ⟨h0, h1, by change st.repCount ≤ st.repCount + 1; omega, Or.inl rfl⟩)
    | exact ⟨h0, h1, by change st.repCount ≤ st.repCount + 1; omega, Or.inl rfl⟩

theorem pressBody_repCount (now angle wvp : ℚ) (vs : List String)
    (settings : ExerciseSettings) (st : ExerciseState)
    (h0 : 0 ≤ st.repCount) (h1 : st.repCount ≤ settings.targetReps - 1) :
    0 ≤ (pressBody now angle wvp vs settings st).repCount ∧
    (pressBody now angle wvp vs settings st).repCount ≤ settings.targetReps - 1 ∧
    (pressBody now angle wvp vs settings st).repCount ≤ st.repCount + 1 ∧
    ((pressBody now angle wvp vs settings st).repCount = st.repCount ∨
     (pressBody now angle wvp vs settings st).repCount = st.repCount + 1 ∨
     (pressBody now angle wvp vs settings st).repCount = 0) := by
  simp only [pressBody]
  repeat' split
  all_goals first
    | exact completeRep_repCount now settings _ h0 h1
    | (rw [restStep_repCount];
       exact ⟨h0, h1, by change st.repCount ≤ st.repCount + 1; omega, Or.inl rfl⟩)
    | exact ⟨h0, h1, by change st.repCount ≤ st.repCount + 1; omega, Or.inl rfl⟩

theorem extensionBody_no_counting (now angle : ℚ) (vs : List String)
    (settings : ExerciseSettings) (st : ExerciseState)
    (h : st.repState ≠ RepState.COUNTING) :
    (extensionBody now angle vs settings st).repState ≠ RepState.COUNTING := by
  simp only [extensionBody]
  repeat' split
  all_goals first
    | (rcases completeRep_repState now settings _ with hh | hh <;> rw [hh] <;> simp)
    | (rcases restStep_repState now settings _ with hh | hh <;> rw [hh] <;> simp_all)
    | simp_all

theorem contractionBody_no_counting (now angle : ℚ) (vs : List String)
    (settings : ExerciseSettings) (st : ExerciseState)
    (h : st.repState ≠ RepState.COUNTING) :
    (contractionBody now angle vs settings st).repState ≠ RepState.COUNTING := by
  simp only [contractionBody]
  repeat' split
  all_goals first
    | (rcases completeRep_repState now settings _ with hh | hh <;> rw [hh] <;> simp)
    | (rcases restStep_repState now settings _ with hh | hh <;> rw [hh] <;> simp_all)
    | simp_all

theorem pressBody_no_counting (now angle wvp : ℚ) (vs : List String)
    (settings : ExerciseSettings) (st : ExerciseState)
    (h : st.repState ≠ RepState.COUNTING) :
    (pressBody now angle wvp vs settings st).repState ≠ RepState.COUNTING := by
  simp only [pressBody]
  repeat' split
  all_goals first
    | (rcases completeRep_repState now settings _ with hh | hh <;> rw [hh] <;> simp)
    | (rcases restStep_repState now settings _ with hh | hh <;> rw [hh] <;> simp_all)
    | simp_all


theorem processSquat_setCount (g : Geom) (now : ℚ) (st : ExerciseState) (pose : Pose)
    (settings : ExerciseSettings) (h : st.setCount ≤ settings.sets) :
    st.setCount ≤ (processSquat g now st pose settings).setCount ∧
    (processSquat g now st pose settings).setCount ≤ settings.sets := by
  simp only [processSquat]
  repeat' split
  all_goals first
    | exact extensionBody_setCount now _ _ settings st h
    | exact ⟨le_refl _, h⟩


theorem processPushup_setCount (g : Geom) (now : ℚ) (st : ExerciseState) (pose : Pose)
    (settings : ExerciseSettings) (h : st.setCount ≤ settings.sets) :
    st.setCount ≤ (processPushup g now st pose settings).setCount ∧
    (processPushup g now st pose settings).setCount ≤ settings.sets := by
  simp only [processPushup]
  repeat' split
  all_goals first
    | exact extensionBody_setCount now _ _ settings st h
    | exact ⟨le_refl _, h⟩

theorem processBicepCurl_setCount (g : Geom) (now : ℚ) (st : ExerciseState) (pose : Pose)
    (settings : ExerciseSettings) (h : st.setCount ≤ settings.sets) :
    st.setCount ≤ (processBicepCurl g now st pose settings).setCount ∧
    (processBicepCurl g now st pose settings).setCount ≤ settings.sets := by
  simp only [processBicepCurl]
  repeat' split
  all_goals first
    | exact contractionBody_setCount now _ _ settings st h
    | exact ⟨le_refl _, h⟩

theorem processShoulderPress_setCount (g : Geom) (now : ℚ) (st : ExerciseState) (pose : Pose)
    (settings : ExerciseSettings) (h : st.setCount ≤ settings.sets) :
    st.setCount ≤ (processShoulderPress g now st pose settings).setCount ∧
    (processShoulderPress g now st pose settings).setCount ≤ settings.sets := by
  simp only [processShoulderPress]
  repeat' split
  all_goals first
    | exact pressBody_setCount now _ _ _ settings st h
    | exact ⟨le_refl _, h⟩

theorem processSquat_repCount (g : Geom) (now : ℚ) (st : ExerciseState) (pose : Pose)
    (settings : ExerciseSettings)
    (h0 : 0 ≤ st.repCount) (h1 : st.repCount ≤ settings.targetReps - 1) :
    0 ≤ (processSquat g now st pose settings).repCount ∧
    (processSquat g now st pose settings).repCount ≤ settings.targetReps - 1 ∧
    (processSquat g now st pose settings).repCount ≤ st.repCount + 1 ∧
    ((processSquat g now st pose settings).repCount = st.repCount ∨
     (processSquat g now st pose settings).repCount = st.repCount + 1 ∨
     (processSquat g now st pose settings).repCount = 0) := by
  simp only [processSquat]
  repeat' split
  all_goals first
    | exact extensionBody_repCount now _ _ settings st h0 h1
    | exact ⟨h0, h1, by change st.repCount ≤ st.repCount + 1; omega, Or.inl rfl⟩

theorem processPushup_repCount (g : Geom) (now : ℚ) (st : ExerciseState) (pose : Pose)
    (settings : ExerciseSettings)
    (h0 : 0 ≤ st.repCount) (h1 : st.repCount ≤ settings.targetReps - 1) :
    0 ≤ (processPushup g now st pose settings).repCount ∧
    (processPushup g now st pose settings).repCount ≤ settings.targetReps - 1 ∧
    (processPushup g now st pose settings).repCount ≤ st.repCount + 1 ∧
    ((processPushup g now st pose settings).repCount = st.repCount ∨
     (processPushup g now st pose settings).repCount = st.repCount + 1 ∨
     (processPushup g now st pose settings).repCount = 0) := by
  simp only [processPushup]
  repeat' split
  all_goals first
    | exact extensionBody_repCount now _ _ settings st h0 h1
    | exact ⟨h0, h1, by change st.repCount ≤ st.repCount + 1; omega, Or.inl rfl⟩

theorem processBicepCurl_repCount (g : Geom) (now : ℚ) (st : ExerciseState) (pose : Pose)
    (settings : ExerciseSettings)
    (h0 : 0 ≤ st.repCount) (h1 : st.repCount ≤ settings.targetReps - 1) :
    0 ≤ (processBicepCurl g now st pose settings).repCount ∧
    (processBicepCurl g now st pose settings).repCount ≤ settings.targetReps - 1 ∧
    (processBicepCurl g now st pose settings).repCount ≤ st.repCount + 1 ∧
    ((processBicepCurl g now st pose settings).repCount = st.repCount ∨
     (processBicepCurl g now st pose settings).repCount = st.repCount + 1 ∨
     (processBicepCurl g now st pose settings).repCount = 0) := by
  simp only [processBicepCurl]
  repeat' split
  all_goals first
    | exact contractionBody_repCount now _ _ settings st h0 h1
    | exact ⟨h0, h1, by change st.repCount ≤ st.repCount + 1; omega, Or.inl rfl⟩

theorem processShoulderPress_repCount (g : Geom) (now : ℚ) (st : ExerciseState) (pose : Pose)
    (settings : ExerciseSettings)
    (h0 : 0 ≤ st.repCount) (h1 : st.repCount ≤ settings.targetReps - 1) :
    0 ≤ (processShoulderPress g now st pose settings).repCount ∧
    (processShoulderPress g now st pose settings).repCount ≤ settings.targetReps - 1 ∧
    (processShoulderPress g now st pose settings).repCount ≤ st.repCount + 1 ∧
    ((processShoulderPress g now st pose settings).repCount = st.repCount ∨
     (processShoulderPress g now st pose settings).repCount = st.repCount + 1 ∨
     (processShoulderPress g now st pose settings).repCount = 0) := by
  simp only [processShoulderPress]
  repeat' split
  all_goals first
    | exact pressBody_repCount now _ _ _ settings st h0 h1
    | exact ⟨h0, h1, by change st.repCount ≤ st.repCount + 1; omega, Or.inl rfl⟩

theorem processSquat_no_counting (g : Geom) (now : ℚ) (st : ExerciseState) (pose : Pose)
    (settings : ExerciseSettings) (h : st.repState ≠ RepState.COUNTING) :
    (processSquat g now st pose settings).repState ≠ RepState.COUNTING := by
  simp only [processSquat]
  repeat' split
  all_goals first
    | exact extensionBody_no_counting now _ _ settings st h
    | exact h

theorem processPushup_no_counting (g : Geom) (now : ℚ) (st : ExerciseState) (pose : Pose)
    (settings : ExerciseSettings) (h : st.repState ≠ RepState.COUNTING) :
    (processPushup g now st pose settings).repState ≠ RepState.COUNTING := by
  simp only [processPushup]
  repeat' split
  all_goals first
    | exact extensionBody_no_counting now _ _ settings st h
    | exact h

theorem processBicepCurl_no_counting (g : Geom) (now : ℚ) (st : ExerciseState) (pose : Pose)
    (settings : ExerciseSettings) (h : st.repState ≠ RepState.COUNTING) :
    (processBicepCurl g now st pose settings).repState ≠ RepState.COUNTING := by
  simp only [processBicepCurl]
  repeat' split
  all_goals first
    | exact contractionBody_no_counting now _ _ settings st h
    | exact h

theorem processShoulderPress_no_counting (g : Geom) (now : ℚ) (st : ExerciseState) (pose : Pose)
    (settings : ExerciseSettings) (h : st.repState ≠ RepState.COUNTING) :
    (processShoulderPress g now st pose settings).repState ≠ RepState.COUNTING := by
  simp only [processShoulderPress]
  repeat' split
  all_goals first
    | exact pressBody_no_counting now _ _ _ settings st h
    | exact h

/-- C4: for any input with `setCount ≤ settings.sets` and any pose
(present or absent), the returned setCount is at least the input setCount
and never exceeds `settings.sets`. -/
theorem exercise_setCount_mono (g : Geom) (now : ℚ) (st : ExerciseState)
    (pose : Option Pose) (h : st.setCount ≤ (EXERCISES st.type).sets) :
    st.setCount ≤ (processExerciseState g now st pose).setCount ∧
    (processExerciseState g now st pose).setCount ≤ (EXERCISES st.type).sets := by
  match pose with
  | none => exact ⟨le_refl _, h⟩
  | some p =>
    obtain ⟨ty, rc, sc, rs, ff, ts, fc⟩ := st
    cases ty
    all_goals simp only [processExerciseState]
    all_goals simp only [reduceCtorEq, if_false, if_true, reduceIte]
    case SQUAT => exact processSquat_setCount g now _ p _ h
    case PUSHUP => exact processPushup_setCount g now _ p _ h
    case BICEP_CURL => exact processBicepCurl_setCount g now _ p _ h
    case SHOULDER_PRESS => exact processShoulderPress_setCount g now _ p _ h
    case NONE => exact ⟨le_refl _, h⟩

/-- C5: the predicate `0 ≤ repCount ≤ targetReps - 1` (catalog settings)
is preserved by every call with any pose; repCount grows by at most one
per call, and changes only by staying, stepping by one, or resetting to
exactly 0 at a set boundary. -/
theorem exercise_repCount_inv (g : Geom) (now : ℚ) (st : ExerciseState)
    (pose : Option Pose)
    (h0 : 0 ≤ st.repCount) (h1 : st.repCount ≤ (EXERCISES st.type).targetReps - 1) :
    0 ≤ (processExerciseState g now st pose).repCount ∧
    (processExerciseState g now st pose).repCount ≤ (EXERCISES st.type).targetReps - 1 ∧
    (processExerciseState g now st pose).repCount ≤ st.repCount + 1 ∧
    ((processExerciseState g now st pose).repCount = st.repCount ∨
     (processExerciseState g now st pose).repCount = st.repCount + 1 ∨
     (processExerciseState g now st pose).repCount = 0) := by
  match pose with
  | none => exact ⟨h0, h1, by change st.repCount ≤ st.repCount + 1; omega,
      Or.inl (by change st.repCount = st.repCount; rfl)⟩
  | some p =>
    obtain ⟨ty, rc, sc, rs, ff, ts, fc⟩ := st
    cases ty
    all_goals simp only [processExerciseState]
    all_goals simp only [reduceCtorEq, if_false, if_true, reduceIte]
    case SQUAT => exact processSquat_repCount g now _ p _ h0 h1
    case PUSHUP => exact processPushup_repCount g now _ p _ h0 h1
    case BICEP_CURL => exact processBicepCurl_repCount g now _ p _ h0 h1
    case SHOULDER_PRESS => exact processShoulderPress_repCount g now _ p _ h0 h1
    case NONE => exact ⟨h0, h1, by change rc ≤ rc + 1; omega, Or.inl (by trivial)⟩


/-- C10: from any state whose repState is not COUNTING, no call of
`processExerciseState` ever returns repState = COUNTING — the COUNTING
enum member is assigned by no evaluator. -/
theorem exercise_no_counting (g : Geom) (now : ℚ) (st : ExerciseState)
    (pose : Option Pose) (h : st.repState ≠ RepState.COUNTING) :
    (processExerciseState g now st pose).repState ≠ RepState.COUNTING := by
  match pose with
  | none => exact h
  | some p =>
    obtain ⟨ty, rc, sc, rs, ff, ts, fc⟩ := st
    cases ty
    all_goals simp only [processExerciseState]
    all_goals simp only [reduceCtorEq, if_false, if_true, reduceIte]
    case SQUAT => exact processSquat_no_counting g now _ p _ h
    case PUSHUP => exact processPushup_no_counting g now _ p _ h
    case BICEP_CURL => exact processBicepCurl_no_counting g now _ p _ h
    case SHOULDER_PRESS => exact processShoulderPress_no_counting g now _ p _ h
    case NONE => exact h


/-- C3: with a present pose missing a required landmark, the evaluator
emits exactly the cannot-detect message with `formCorrect = false`, and
repCount, setCount and repState are unchanged (in particular the frame
never forces INCORRECT_FORM). -/
theorem exercise_missing_landmark (g : Geom) (now : ℚ) (st : ExerciseState) (pose : Pose)
    (htype : st.type ≠ ExerciseType.NONE)
    (hmiss : requiredPresent st.type pose = false) :
    (processExerciseState g now st (some pose)).formFeedback = [cannotDetectMsg st.type] ∧
    (processExerciseState g now st (some pose)).formCorrect = false ∧
    (processExerciseState g now st (some pose)).repCount = st.repCount ∧
    (processExerciseState g now st (some pose)).setCount = st.setCount ∧
    (processExerciseState g now st (some pose)).repState = st.repState := by
  obtain ⟨ty, rc, sc, rs, ff, ts, fc⟩ := st
  cases ty
  case NONE => exact absurd rfl htype
  all_goals simp only [requiredPresent] at hmiss
  all_goals simp only [processExerciseState]
  all_goals simp only [reduceCtorEq, if_false, if_true, reduceIte]
  case SQUAT =>
    simp only [processSquat]
    split
    · rename_i kp1 kp2 kp3 heq1 heq2 heq3
      rw [heq1, heq2, heq3] at hmiss
      simp at hmiss
    · simp [cannotDetectMsg]
  case PUSHUP =>
    simp only [processPushup]
    split
    · rename_i kp1 kp2 kp3 heq1 heq2 heq3
      rw [heq1, heq2, heq3] at hmiss
      simp at hmiss
    · simp [cannotDetectMsg]
  case BICEP_CURL =>
    simp only [processBicepCurl]
    split
    · rename_i kp1 kp2 kp3 heq1 heq2 heq3
      rw [heq1, heq2, heq3] at hmiss
      simp at hmiss
    · simp [cannotDetectMsg]
  case SHOULDER_PRESS =>
    simp only [processShoulderPress]
    split
    · rename_i kp1 kp2 kp3 heq1 heq2 heq3
      rw [heq1, heq2, heq3] at hmiss
      simp at hmiss
    · simp [cannotDetectMsg]


theorem extensionBody_gate (now angle : ℚ) (vs : List String)
    (settings : ExerciseSettings) (st : ExerciseState)
    (hvs : (st.formCorrect && vs.isEmpty) = false)
    (hrep : st.repState = RepState.UP ∨ st.repState = RepState.DOWN) :
    (extensionBody now angle vs settings st).repState = RepState.INCORRECT_FORM ∧
    (extensionBody now angle vs settings st).repCount = st.repCount ∧
    (extensionBody now angle vs settings st).setCount = st.setCount ∧
    (extensionBody now angle vs settings st).formFeedback =
      st.formFeedback ++ vs ++ ["Fix your form to continue"] := by
  simp only [extensionBody]
  split
  · simp
  · rename_i hc
    exact absurd ⟨hvs, by rcases hrep with h | h <;> simp [h]⟩ hc

theorem contractionBody_gate (now angle : ℚ) (vs : List String)
    (settings : ExerciseSettings) (st : ExerciseState)
    (hvs : (st.formCorrect && vs.isEmpty) = false)
    (hrep : st.repState = RepState.UP ∨ st.repState = RepState.DOWN) :
    (contractionBody now angle vs settings st).repState = RepState.INCORRECT_FORM ∧
    (contractionBody now angle vs settings st).repCount = st.repCount ∧
    (contractionBody now angle vs settings st).setCount = st.setCount ∧
    (contractionBody now angle vs settings st).formFeedback =
      st.formFeedback ++ vs ++ ["Fix your form to continue"] := by
  simp only [contractionBody]
  split
  · simp
  · rename_i hc
    exact absurd ⟨hvs, by rcases hrep with h | h <;> simp [h]⟩ hc

theorem pressBody_gate (now angle wvp : ℚ) (vs : List String)
    (settings : ExerciseSettings) (st : ExerciseState)
    (hvs : (st.formCorrect && vs.isEmpty) = false)
    (hrep : st.repState = RepState.UP ∨ st.repState = RepState.DOWN) :
    (pressBody now angle wvp vs settings st).repState = RepState.INCORRECT_FORM ∧
    (pressBody now angle wvp vs settings st).repCount = st.repCount ∧
    (pressBody now angle wvp vs settings st).setCount = st.setCount ∧
    (pressBody now angle wvp vs settings st).formFeedback =
      st.formFeedback ++ vs ++ ["Fix your form to continue"] := by
  simp only [pressBody]
  split
  · simp
  · rename_i hc
    exact absurd ⟨hvs, by rcases hrep with h | h <;> simp [h]⟩ hc


theorem extensionBody_recovery (now angle : ℚ) (settings : ExerciseSettings)
    (st : ExerciseState) (hfc : st.formCorrect = true)
    (hrep : st.repState = RepState.INCORRECT_FORM)
    (hthr : settings.thresholds.downAngle ≤ settings.thresholds.upAngle) :
    (extensionBody now angle [] settings st).repState =
      (if angle < settings.thresholds.downAngle then RepState.DOWN else RepState.UP) ∧
    "Good form, continue your exercise" ∈ (extensionBody now angle [] settings st).formFeedback := by
  obtain ⟨ty, rc, sc, rs, ff, ts, fc⟩ := st
  simp only at hfc hrep
  subst hfc; subst hrep
  simp only [extensionBody, List.append_nil, List.isEmpty_nil, Bool.and_true]
  rw [if_neg (by simp)]
  rw [if_pos (by simp)]
  by_cases hlt : angle < settings.thresholds.downAngle
  · rw [if_pos hlt]
    have hng : ¬ angle > settings.thresholds.upAngle :=
      not_lt.mpr (le_of_lt (lt_of_lt_of_le hlt hthr))
    exact ⟨by simp [hng], by simp [hng]⟩
  · rw [if_neg hlt]
    exact ⟨by simp [hlt], by simp [hlt]⟩


theorem contractionBody_recovery (now angle : ℚ) (settings : ExerciseSettings)
    (st : ExerciseState) (hfc : st.formCorrect = true)
    (hrep : st.repState = RepState.INCORRECT_FORM)
    (hthr : settings.thresholds.upAngle ≤ settings.thresholds.downAngle) :
    (contractionBody now angle [] settings st).repState =
      (if angle < settings.thresholds.upAngle then RepState.UP else RepState.DOWN) ∧
    "Good form, continue your exercise" ∈ (contractionBody now angle [] settings st).formFeedback := by
  obtain ⟨ty, rc, sc, rs, ff, ts, fc⟩ := st
  simp only at hfc hrep
  subst hfc; subst hrep
  simp only [contractionBody, List.append_nil, List.isEmpty_nil, Bool.and_true]
  rw [if_neg (by simp)]
  rw [if_pos (by simp)]
  by_cases hlt : angle < settings.thresholds.upAngle
  · rw [if_pos hlt]
    have hng : ¬ angle > settings.thresholds.downAngle :=
      not_lt.mpr (le_of_lt (lt_of_lt_of_le hlt hthr))
    exact ⟨by simp [hng], by simp [hng]⟩
  · rw [if_neg hlt]
    exact ⟨by simp [hlt], by simp [hlt]⟩

theorem pressBody_recovery (now angle wvp : ℚ) (settings : ExerciseSettings)
    (st : ExerciseState) (hfc : st.formCorrect = true)
    (hrep : st.repState = RepState.INCORRECT_FORM) :
    (pressBody now angle wvp [] settings st).repState =
      (if wvp < -100 then RepState.UP else RepState.DOWN) ∧
    "Good form, continue your exercise" ∈ (pressBody now angle wvp [] settings st).formFeedback := by
  obtain ⟨ty, rc, sc, rs, ff, ts, fc⟩ := st
  simp only at hfc hrep
  subst hfc; subst hrep
  simp only [pressBody, List.append_nil, List.isEmpty_nil, Bool.and_true]
  rw [if_neg (by simp)]
  rw [if_pos (by simp)]
  by_cases hlt : wvp < -100
  · rw [if_pos hlt]
    have hng : ¬ wvp > -50 := not_lt.mpr (le_of_lt (lt_trans hlt (by norm_num)))
    exact ⟨by simp [hng], by simp [hng]⟩
  · rw [if_neg hlt]
    exact ⟨by simp [hlt], by simp [hlt]⟩


theorem extensionBody_resting (now angle : ℚ) (vs : List String)
    (settings : ExerciseSettings) (st : ExerciseState)
    (hrep : st.repState = RepState.RESTING) :
    extensionBody now angle vs settings st =
      restStep now settings
        { st with formFeedback := st.formFeedback ++ vs,
                  formCorrect := st.formCorrect && vs.isEmpty } := by
  obtain ⟨ty, rc, sc, rs, ff, ts, fc⟩ := st
  simp only at hrep
  subst hrep
  simp only [extensionBody]
  rw [if_neg (by simp)]
  rw [if_neg (by simp)]

theorem contractionBody_resting (now angle : ℚ) (vs : List String)
    (settings : ExerciseSettings) (st : ExerciseState)
    (hrep : st.repState = RepState.RESTING) :
    contractionBody now angle vs settings st =
      restStep now settings
        { st with formFeedback := st.formFeedback ++ vs,
                  formCorrect := st.formCorrect && vs.isEmpty } := by
  obtain ⟨ty, rc, sc, rs, ff, ts, fc⟩ := st
  simp only at hrep
  subst hrep
  simp only [contractionBody]
  rw [if_neg (by simp)]
  rw [if_neg (by simp)]

theorem pressBody_resting (now angle wvp : ℚ) (vs : List String)
    (settings : ExerciseSettings) (st : ExerciseState)
    (hrep : st.repState = RepState.RESTING) :
    pressBody now angle wvp vs settings st =
      restStep now settings
        { st with formFeedback := st.formFeedback ++ vs,
                  formCorrect := st.formCorrect && vs.isEmpty } := by
  obtain ⟨ty, rc, sc, rs, ff, ts, fc⟩ := st
  simp only at hrep
  subst hrep
  simp only [pressBody]
  rw [if_neg (by simp)]
  rw [if_neg (by simp)]

theorem restStep_branches (now : ℚ) (settings : ExerciseSettings) (st : ExerciseState) :
    (((now - st.lastRepTimestamp) / 1000 ≥ (settings.restBetweenSets : ℚ)) →
      (restStep now settings st).repState = RepState.STARTING ∧
      ("Starting set " ++ toString st.setCount) ∈ (restStep now settings st).formFeedback) ∧
    (¬ ((now - st.lastRepTimestamp) / 1000 ≥ (settings.restBetweenSets : ℚ)) →
      (restStep now settings st).repState = st.repState ∧
      ("Rest: " ++
        toString (jsRound ((settings.restBetweenSets : ℚ) - (now - st.lastRepTimestamp) / 1000)) ++
        "s remaining") ∈ (restStep now settings st).formFeedback) := by
  simp only [restStep]
  constructor
  · intro h
    rw [if_pos h]
    exact ⟨rfl, by simp⟩
  · intro h
    rw [if_neg h]
    exact ⟨rfl, by simp⟩


/-- C1: during a bicep curl mid-rep (UP or DOWN), a right elbow drifted
more than 30px right of the right shoulder forces INCORRECT_FORM with the
elbow-position and fix-your-form messages and frozen rep/set counters. -/
theorem bicep_curl_elbow_drift_freezes (g : Geom) (now : ℚ) (st : ExerciseState)
    (pose : Pose) (sh el : Keypoint)
    (htype : st.type = ExerciseType.BICEP_CURL)
    (hrep : st.repState = RepState.UP ∨ st.repState = RepState.DOWN)
    (hsh : getKeypoint pose "right_shoulder" = some sh)
    (hel : getKeypoint pose "right_elbow" = some el)
    (hwr : (getKeypoint pose "right_wrist").isSome = true)
    (hdrift : el.x > sh.x + 30) :
    (processExerciseState g now st (some pose)).repState = RepState.INCORRECT_FORM ∧
    "Keep your elbows close to your body" ∈ (processExerciseState g now st (some pose)).formFeedback ∧
    "Fix your form to continue" ∈ (processExerciseState g now st (some pose)).formFeedback ∧
    (processExerciseState g now st (some pose)).repCount = st.repCount ∧
    (processExerciseState g now st (some pose)).setCount = st.setCount := by
  obtain ⟨ty, rc, sc, rst, ff, ts, fc⟩ := st
  simp only at htype hrep
  subst htype
  obtain ⟨w, hw⟩ := Option.isSome_iff_exists.mp hwr
  simp only [processExerciseState]
  simp only [reduceCtorEq, if_false, if_true, reduceIte]
  simp only [processBicepCurl, hsh, hel, hw]
  have hmem : "Keep your elbows close to your body" ∈ curlViolations g sh el := by
    simp [curlViolations, hdrift]
  have hie : (curlViolations g sh el).isEmpty = false := by
    cases hcv : curlViolations g sh el
    · rw [hcv] at hmem; cases hmem
    · simp
  have gate := contractionBody_gate now (g.calculateAngle sh el w) (curlViolations g sh el)
    (EXERCISES ExerciseType.BICEP_CURL)
    { type := ExerciseType.BICEP_CURL, repCount := rc, setCount := sc, repState := rst,
      formFeedback := [], lastRepTimestamp := ts, formCorrect := true }
    (by simp [hie]) hrep
  refine ⟨gate.1, ?_, ?_, gate.2.1, gate.2.2.1⟩
  · rw [gate.2.2.2]; simp [hmem]
  · rw [gate.2.2.2]; simp


theorem isEmpty_false_of_ne_nil {l : List String} (h : l ≠ []) : l.isEmpty = false := by
  cases l
  · exact absurd rfl h
  · rfl

/-- C8 (amended): with a present pose whose required landmarks are present
and at least one form check failing in this call, a mid-rep state (UP or
DOWN) is forced to INCORRECT_FORM. -/
theorem form_violation_mid_rep_forces_incorrect (g : Geom) (now : ℚ)
    (st : ExerciseState) (pose : Pose)
    (htype : st.type ≠ ExerciseType.NONE)
    (hrep : st.repState = RepState.UP ∨ st.repState = RepState.DOWN)
    (hpres : requiredPresent st.type pose = true)
    (hviol : violationsOf g st.type pose ≠ []) :
    (processExerciseState g now st (some pose)).repState = RepState.INCORRECT_FORM := by
  obtain ⟨ty, rc, sc, rst, ff, ts, fc⟩ := st
  simp only at hrep hpres hviol ⊢
  cases ty
  case NONE => exact absurd rfl htype
  all_goals
    simp only [requiredPresent, Bool.and_eq_true, Option.isSome_iff_exists] at hpres
  all_goals obtain ⟨⟨⟨k1, h1⟩, ⟨k2, h2⟩⟩, ⟨k3, h3⟩⟩ := hpres
  all_goals simp only [processExerciseState]
  all_goals simp only [reduceCtorEq, if_false, if_true, reduceIte]
  case mk.SQUAT.intro.intro.intro.intro.intro =>
    simp only [violationsOf, h1, h2, h3] at hviol
    simp only [processSquat, h1, h2, h3]
    exact (extensionBody_gate now _ _ _ _ (by simp [isEmpty_false_of_ne_nil hviol]) hrep).1
  case mk.PUSHUP.intro.intro.intro.intro.intro =>
    simp only [violationsOf, h1] at hviol
    simp only [processPushup, h1, h2, h3]
    exact (extensionBody_gate now _ _ _ _ (by simp [isEmpty_false_of_ne_nil hviol]) hrep).1
  case mk.BICEP_CURL.intro.intro.intro.intro.intro =>
    simp only [violationsOf, h1, h2] at hviol
    simp only [processBicepCurl, h1, h2, h3]
    exact (contractionBody_gate now _ _ _ _ (by simp [isEmpty_false_of_ne_nil hviol]) hrep).1
  case mk.SHOULDER_PRESS.intro.intro.intro.intro.intro =>
    simp only [violationsOf, h2, h3] at hviol
    simp only [processShoulderPress, h1, h2, h3]
    exact (pressBody_gate now _ _ _ _ _ (by simp [isEmpty_false_of_ne_nil hviol]) hrep).1


/-- C2: from INCORRECT_FORM, a clean pose (required landmarks present, no
form-check violation) re-enters the UP/DOWN cycle with the good-form
message, and the same-call fall-through keeps the freshly chosen state. -/
theorem recovery_reenters_cycle (g : Geom) (now : ℚ) (st : ExerciseState) (pose : Pose)
    (htype : st.type ≠ ExerciseType.NONE)
    (hrep : st.repState = RepState.INCORRECT_FORM)
    (hpres : requiredPresent st.type pose = true)
    (hviol : violationsOf g st.type pose = []) :
    (processExerciseState g now st (some pose)).repState = recoveryChoice g st.type pose ∧
    ((processExerciseState g now st (some pose)).repState = RepState.UP ∨
     (processExerciseState g now st (some pose)).repState = RepState.DOWN) ∧
    "Good form, continue your exercise" ∈
      (processExerciseState g now st (some pose)).formFeedback := by
  obtain ⟨ty, rc, sc, rst, ff, ts, fc⟩ := st
  simp only at hrep hpres hviol ⊢
  cases ty
  case NONE => exact absurd rfl htype
  all_goals
    simp only [requiredPresent, Bool.and_eq_true, Option.isSome_iff_exists] at hpres
  all_goals obtain ⟨⟨⟨k1, h1⟩, ⟨k2, h2⟩⟩, ⟨k3, h3⟩⟩ := hpres
  all_goals simp only [processExerciseState]
  all_goals simp only [reduceCtorEq, if_false, if_true, reduceIte]
  case mk.SQUAT.intro.intro.intro.intro.intro =>
    simp only [violationsOf, h1, h2, h3] at hviol
    simp only [processSquat, h1, h2, h3, hviol]
    have hrec := extensionBody_recovery now (g.calculateAngle k1 k2 k3)
      (EXERCISES ExerciseType.SQUAT)
      { type := ExerciseType.SQUAT, repCount := rc, setCount := sc, repState := rst,
        formFeedback := [], lastRepTimestamp := ts, formCorrect := true }
      rfl hrep (by norm_num [EXERCISES])
    refine ⟨?_, ?_, hrec.2⟩
    · rw [hrec.1]
      simp only [recoveryChoice, h1, h2, h3]
    · rw [hrec.1]
      split <;> simp
  case mk.PUSHUP.intro.intro.intro.intro.intro =>
    simp only [violationsOf, h1] at hviol
    simp only [processPushup, h1, h2, h3, hviol]
    have hrec := extensionBody_recovery now (g.calculateAngle k1 k2 k3)
      (EXERCISES ExerciseType.PUSHUP)
      { type := ExerciseType.PUSHUP, repCount := rc, setCount := sc, repState := rst,
        formFeedback := [], lastRepTimestamp := ts, formCorrect := true }
      rfl hrep (by norm_num [EXERCISES])
    refine ⟨?_, ?_, hrec.2⟩
    · rw [hrec.1]
      simp only [recoveryChoice, h1, h2, h3]
    · rw [hrec.1]
      split <;> simp
  case mk.BICEP_CURL.intro.intro.intro.intro.intro =>
    simp only [violationsOf, h1, h2] at hviol
    simp only [processBicepCurl, h1, h2, h3, hviol]
    have hrec := contractionBody_recovery now (g.calculateAngle k1 k2 k3)
      (EXERCISES ExerciseType.BICEP_CURL)
      { type := ExerciseType.BICEP_CURL, repCount := rc, setCount := sc, repState := rst,
        formFeedback := [], lastRepTimestamp := ts, formCorrect := true }
      rfl hrep (by norm_num [EXERCISES])
    refine ⟨?_, ?_, hrec.2⟩
    · rw [hrec.1]
      simp only [recoveryChoice, h1, h2, h3]
    · rw [hrec.1]
      split <;> simp
  case mk.SHOULDER_PRESS.intro.intro.intro.intro.intro =>
    simp only [violationsOf, h2, h3] at hviol
    simp only [processShoulderPress, h1, h2, h3, hviol]
    have hrec := pressBody_recovery now (g.calculateAngle k1 k2 k3)
      (g.calculateVerticalDistance k3 k1)
      (EXERCISES ExerciseType.SHOULDER_PRESS)
      { type := ExerciseType.SHOULDER_PRESS, repCount := rc, setCount := sc, repState := rst,
        formFeedback := [], lastRepTimestamp := ts, formCorrect := true }
      rfl hrep
    refine ⟨?_, ?_, hrec.2⟩
    · rw [hrec.1]
      simp only [recoveryChoice, h1, h3]
    · rw [hrec.1]
      split <;> simp


/-- C6: with landmarks present, a RESTING state transitions to STARTING
exactly when the elapsed seconds reach `restBetweenSets` (boundary
inclusive), emitting the starting message; otherwise it stays RESTING and
emits the rounded countdown. -/
theorem resting_gate (g : Geom) (now : ℚ) (st : ExerciseState) (pose : Pose)
    (htype : st.type ≠ ExerciseType.NONE)
    (hrep : st.repState = RepState.RESTING)
    (hpres : requiredPresent st.type pose = true) :
    ((processExerciseState g now st (some pose)).repState = RepState.STARTING ↔
      (now - st.lastRepTimestamp) / 1000 ≥ ((EXERCISES st.type).restBetweenSets : ℚ)) ∧
    ((now - st.lastRepTimestamp) / 1000 ≥ ((EXERCISES st.type).restBetweenSets : ℚ) →
      ("Starting set " ++ toString st.setCount) ∈
        (processExerciseState g now st (some pose)).formFeedback) ∧
    (¬ ((now - st.lastRepTimestamp) / 1000 ≥ ((EXERCISES st.type).restBetweenSets : ℚ)) →
      (processExerciseState g now st (some pose)).repState = RepState.RESTING ∧
      ("Rest: " ++
        toString (jsRound (((EXERCISES st.type).restBetweenSets : ℚ) -
          (now - st.lastRepTimestamp) / 1000)) ++
        "s remaining") ∈ (processExerciseState g now st (some pose)).formFeedback) := by
  obtain ⟨ty, rc, sc, rst, ff, ts, fc⟩ := st
  simp only at hrep hpres ⊢
  cases ty
  case NONE => exact absurd rfl htype
  all_goals
    simp only [requiredPresent, Bool.and_eq_true, Option.isSome_iff_exists] at hpres
  all_goals obtain ⟨⟨⟨k1, h1⟩, ⟨k2, h2⟩⟩, ⟨k3, h3⟩⟩ := hpres
  all_goals simp only [processExerciseState]
  all_goals simp only [reduceCtorEq, if_false, if_true, reduceIte]
  case mk.SQUAT.intro.intro.intro.intro.intro =>
    simp only [processSquat, h1, h2, h3]
    rw [extensionBody_resting _ _ _ _ _ hrep]
    have hb := restStep_branches now (EXERCISES ExerciseType.SQUAT)
      { type := ExerciseType.SQUAT, repCount := rc, setCount := sc, repState := rst,
        formFeedback := [] ++ squatViolations g pose k1 k2 k3,
        lastRepTimestamp := ts, formCorrect := true && (squatViolations g pose k1 k2 k3).isEmpty }
    constructor
    · constructor
      · intro hs
        by_contra hlt
        rw [(hb.2 hlt).1, hrep] at hs
        cases hs
      · intro hge
        exact (hb.1 hge).1
    · exact ⟨fun hge => (hb.1 hge).2, fun hlt => ⟨by rw [(hb.2 hlt).1]; exact hrep, (hb.2 hlt).2⟩⟩
  case mk.PUSHUP.intro.intro.intro.intro.intro =>
    simp only [processPushup, h1, h2, h3]
    rw [extensionBody_resting _ _ _ _ _ hrep]
    have hb := restStep_branches now (EXERCISES ExerciseType.PUSHUP)
      { type := ExerciseType.PUSHUP, repCount := rc, setCount := sc, repState := rst,
        formFeedback := [] ++ pushupViolations g pose k1,
        lastRepTimestamp := ts, formCorrect := true && (pushupViolations g pose k1).isEmpty }
    constructor
    · constructor
      · intro hs
        by_contra hlt
        rw [(hb.2 hlt).1, hrep] at hs
        cases hs
      · intro hge
        exact (hb.1 hge).1
    · exact ⟨fun hge => (hb.1 hge).2, fun hlt => ⟨by rw [(hb.2 hlt).1]; exact hrep, (hb.2 hlt).2⟩⟩
  case mk.BICEP_CURL.intro.intro.intro.intro.intro =>
    simp only [processBicepCurl, h1, h2, h3]
    rw [contractionBody_resting _ _ _ _ _ hrep]
    have hb := restStep_branches now (EXERCISES ExerciseType.BICEP_CURL)
      { type := ExerciseType.BICEP_CURL, repCount := rc, setCount := sc, repState := rst,
        formFeedback := [] ++ curlViolations g k1 k2,
        lastRepTimestamp := ts, formCorrect := true && (curlViolations g k1 k2).isEmpty }
    constructor
    · constructor
      · intro hs
        by_contra hlt
        rw [(hb.2 hlt).1, hrep] at hs
        cases hs
      · intro hge
        exact (hb.1 hge).1
    · exact ⟨fun hge => (hb.1 hge).2, fun hlt => ⟨by rw [(hb.2 hlt).1]; exact hrep, (hb.2 hlt).2⟩⟩
  case mk.SHOULDER_PRESS.intro.intro.intro.intro.intro =>
    simp only [processShoulderPress, h1, h2, h3]
    rw [pressBody_resting _ _ _ _ _ _ hrep]
    have hb := restStep_branches now (EXERCISES ExerciseType.SHOULDER_PRESS)
      { type := ExerciseType.SHOULDER_PRESS, repCount := rc, setCount := sc, repState := rst,
        formFeedback := [] ++ pressViolations k2 k3,
        lastRepTimestamp := ts, formCorrect := true && (pressViolations k2 k3).isEmpty }
    constructor
    · constructor
      · intro hs
        by_contra hlt
        rw [(hb.2 hlt).1, hrep] at hs
        cases hs
      · intro hge
        exact (hb.1 hge).1
    · exact ⟨fun hge => (hb.1 hge).2, fun hlt => ⟨by rw [(hb.2 hlt).1]; exact hrep, (hb.2 hlt).2⟩⟩


/-- The custom settings of the squat scenario in the spec. -/
def squatScenarioSettings : ExerciseSettings :=
  { name := "Squat", type := ExerciseType.SQUAT, targetReps := 2, restBetweenSets := 60,
    sets := 1, thresholds := { upAngle := 165, downAngle := 100 } }

/-- One frame of the scenario: the per-call reset done by
`processExerciseState` (clear feedback, reset formCorrect) followed by the
squat evaluator, with the scenario settings in place of the catalog. -/
def scenarioStep (g : Geom) (now : ℚ) (st : ExerciseState) (pose : Pose) : ExerciseState :=
  processSquat g now { st with formFeedback := [], formCorrect := true } pose
    squatScenarioSettings

theorem scenario_step_down (g : Geom) (t0 tN : ℚ) (p : Pose) (hip knee ankle : Keypoint)
    (rc sc : ℤ)
    (h1 : getKeypoint p "left_hip" = some hip)
    (h2 : getKeypoint p "left_knee" = some knee)
    (h3 : getKeypoint p "left_ankle" = some ankle)
    (hv : squatViolations g p hip knee ankle = [])
    (ha : g.calculateAngle hip knee ankle = 80) :
    scenarioStep g tN
      { type := ExerciseType.SQUAT, repCount := rc, setCount := sc, repState := RepState.UP,
        formFeedback := [], lastRepTimestamp := t0, formCorrect := true } p =
      { type := ExerciseType.SQUAT, repCount := rc, setCount := sc, repState := RepState.DOWN,
        formFeedback := [], lastRepTimestamp := t0, formCorrect := true } := by
  simp only [scenarioStep, processSquat, h1, h2, h3, hv, ha]
  simp only [extensionBody, completeRep, squatScenarioSettings]
  simp only [reduceCtorEq, if_false, if_true, reduceIte, and_false, false_and, and_true,
    true_and, not_false_eq_true, ne_eq]
  norm_num

theorem scenario_step_up1 (g : Geom) (t0 tN : ℚ) (p : Pose) (hip knee ankle : Keypoint)
    (h1 : getKeypoint p "left_hip" = some hip)
    (h2 : getKeypoint p "left_knee" = some knee)
    (h3 : getKeypoint p "left_ankle" = some ankle)
    (hv : squatViolations g p hip knee ankle = [])
    (ha : g.calculateAngle hip knee ankle = 170) :
    scenarioStep g tN
      { type := ExerciseType.SQUAT, repCount := 0, setCount := 1, repState := RepState.DOWN,
        formFeedback := [], lastRepTimestamp := t0, formCorrect := true } p =
      { type := ExerciseType.SQUAT, repCount := 1, setCount := 1, repState := RepState.UP,
        formFeedback := [], lastRepTimestamp := tN, formCorrect := true } := by
  simp only [scenarioStep, processSquat, h1, h2, h3, hv, ha]
  simp only [extensionBody, completeRep, squatScenarioSettings]
  simp only [reduceCtorEq, if_false, if_true, reduceIte, and_false, false_and, and_true,
    true_and, not_false_eq_true, ne_eq]
  norm_num

theorem scenario_step_complete (g : Geom) (t0 tN : ℚ) (p : Pose) (hip knee ankle : Keypoint)
    (h1 : getKeypoint p "left_hip" = some hip)
    (h2 : getKeypoint p "left_knee" = some knee)
    (h3 : getKeypoint p "left_ankle" = some ankle)
    (hv : squatViolations g p hip knee ankle = [])
    (ha : g.calculateAngle hip knee ankle = 170) :
    scenarioStep g tN
      { type := ExerciseType.SQUAT, repCount := 1, setCount := 1, repState := RepState.DOWN,
        formFeedback := [], lastRepTimestamp := t0, formCorrect := true } p =
      { type := ExerciseType.SQUAT, repCount := 0, setCount := 1, repState := RepState.RESTING,
        formFeedback := ["Workout complete! Great job!"], lastRepTimestamp := tN,
        formCorrect := true } := by
  simp only [scenarioStep, processSquat, h1, h2, h3, hv, ha]
  simp only [extensionBody, completeRep, squatScenarioSettings]
  simp only [reduceCtorEq, if_false, if_true, reduceIte, and_false, false_and, and_true,
    true_and, not_false_eq_true, ne_eq]
  norm_num

/-- C7: the spec's squat scenario with settings downAngle 100, upAngle 165,
targetReps 2, sets 1: angles 80, 170, 80, 170 from `{UP, repCount 0}` give
DOWN, then UP with one rep, then DOWN, then a completed set — repCount back
to 0, setCount clamped to 1, RESTING, and the workout-complete message. -/
theorem squat_scenario (g : Geom) (t0 t1 t2 t3 t4 : ℚ) (p1 p2 p3 p4 : Pose)
    (hip1 knee1 ankle1 hip2 knee2 ankle2 hip3 knee3 ankle3 hip4 knee4 ankle4 : Keypoint)
    (h11 : getKeypoint p1 "left_hip" = some hip1)
    (h12 : getKeypoint p1 "left_knee" = some knee1)
    (h13 : getKeypoint p1 "left_ankle" = some ankle1)
    (h21 : getKeypoint p2 "left_hip" = some hip2)
    (h22 : getKeypoint p2 "left_knee" = some knee2)
    (h23 : getKeypoint p2 "left_ankle" = some ankle2)
    (h31 : getKeypoint p3 "left_hip" = some hip3)
    (h32 : getKeypoint p3 "left_knee" = some knee3)
    (h33 : getKeypoint p3 "left_ankle" = some ankle3)
    (h41 : getKeypoint p4 "left_hip" = some hip4)
    (h42 : getKeypoint p4 "left_knee" = some knee4)
    (h43 : getKeypoint p4 "left_ankle" = some ankle4)
    (hv1 : squatViolations g p1 hip1 knee1 ankle1 = [])
    (hv2 : squatViolations g p2 hip2 knee2 ankle2 = [])
    (hv3 : squatViolations g p3 hip3 knee3 ankle3 = [])
    (hv4 : squatViolations g p4 hip4 knee4 ankle4 = [])
    (ha1 : g.calculateAngle hip1 knee1 ankle1 = 80)
    (ha2 : g.calculateAngle hip2 knee2 ankle2 = 170)
    (ha3 : g.calculateAngle hip3 knee3 ankle3 = 80)
    (ha4 : g.calculateAngle hip4 knee4 ankle4 = 170) :
    (scenarioStep g t1
        { type := ExerciseType.SQUAT, repCount := 0, setCount := 1, repState := RepState.UP,
          formFeedback := [], lastRepTimestamp := t0, formCorrect := true } p1).repState =
      RepState.DOWN ∧
    (scenarioStep g t2 (scenarioStep g t1
        { type := ExerciseType.SQUAT, repCount := 0, setCount := 1, repState := RepState.UP,
          formFeedback := [], lastRepTimestamp := t0, formCorrect := true } p1) p2).repState =
      RepState.UP ∧
    (scenarioStep g t2 (scenarioStep g t1
        { type := ExerciseType.SQUAT, repCount := 0, setCount := 1, repState := RepState.UP,
          formFeedback := [], lastRepTimestamp := t0, formCorrect := true } p1) p2).repCount = 1 ∧
    (scenarioStep g t4 (scenarioStep g t3 (scenarioStep g t2 (scenarioStep g t1
        { type := ExerciseType.SQUAT, repCount := 0, setCount := 1, repState := RepState.UP,
          formFeedback := [], lastRepTimestamp := t0, formCorrect := true } p1) p2) p3) p4).repCount = 0 ∧
    (scenarioStep g t4 (scenarioStep g t3 (scenarioStep g t2 (scenarioStep g t1
        { type := ExerciseType.SQUAT, repCount := 0, setCount := 1, repState := RepState.UP,
          formFeedback := [], lastRepTimestamp := t0, formCorrect := true } p1) p2) p3) p4).setCount = 1 ∧
    (scenarioStep g t4 (scenarioStep g t3 (scenarioStep g t2 (scenarioStep g t1
        { type := ExerciseType.SQUAT, repCount := 0, setCount := 1, repState := RepState.UP,
          formFeedback := [], lastRepTimestamp := t0, formCorrect := true } p1) p2) p3) p4).repState =
      RepState.RESTING ∧
    "Workout complete! Great job!" ∈
      (scenarioStep g t4 (scenarioStep g t3 (scenarioStep g t2 (scenarioStep g t1
        { type := ExerciseType.SQUAT, repCount := 0, setCount := 1, repState := RepState.UP,
          formFeedback := [], lastRepTimestamp := t0, formCorrect := true } p1) p2) p3) p4).formFeedback := by
  rw [scenario_step_down g t0 t1 p1 hip1 knee1 ankle1 0 1 h11 h12 h13 hv1 ha1]
  rw [scenario_step_up1 g t0 t2 p2 hip2 knee2 ankle2 h21 h22 h23 hv2 ha2]
  rw [scenario_step_down g t2 t3 p3 hip3 knee3 ankle3 1 1 h31 h32 h33 hv3 ha3]
  rw [scenario_step_complete g t2 t4 p4 hip4 knee4 ankle4 h41 h42 h43 hv4 ha4]
  simp

/-- Closed instantiation of the C1 theorem: drifted-elbow curl frame at a
concrete state and pose. -/
theorem bicep_curl_elbow_drift_freezes_witness :
    (processExerciseState gW 0 stC1 (some poseCurlDrift)).repState = RepState.INCORRECT_FORM ∧
    "Keep your elbows close to your body" ∈
      (processExerciseState gW 0 stC1 (some poseCurlDrift)).formFeedback ∧
    "Fix your form to continue" ∈
      (processExerciseState gW 0 stC1 (some poseCurlDrift)).formFeedback ∧
    (processExerciseState gW 0 stC1 (some poseCurlDrift)).repCount = stC1.repCount ∧
    (processExerciseState gW 0 stC1 (some poseCurlDrift)).setCount = stC1.setCount :=
  bicep_curl_elbow_drift_freezes gW 0 stC1 poseCurlDrift (kp 0 0) (kp 40 0)
    (by decide) (Or.inl (by decide)) (by decide) (by decide) (by decide) (by decide)

/-- Closed instantiation of the C2 theorem: a clean squat frame with knee
angle 80 recovers INCORRECT_FORM into the cycle. -/
theorem recovery_reenters_cycle_witness :
    (processExerciseState gW 0 stC2 (some (poseSquatOk 80))).repState =
      recoveryChoice gW stC2.type (poseSquatOk 80) ∧
    ((processExerciseState gW 0 stC2 (some (poseSquatOk 80))).repState = RepState.UP ∨
     (processExerciseState gW 0 stC2 (some (poseSquatOk 80))).repState = RepState.DOWN) ∧
    "Good form, continue your exercise" ∈
      (processExerciseState gW 0 stC2 (some (poseSquatOk 80))).formFeedback :=
  recovery_reenters_cycle gW 0 stC2 (poseSquatOk 80) (by decide) (by decide)
    (by decide) (by decide)

/-- Closed instantiation of the C3 theorem: a squat frame with the ankle
missing. -/
theorem exercise_missing_landmark_witness :
    (processExerciseState gW 0 stC3 (some poseSquatMissing)).formFeedback =
      [cannotDetectMsg stC3.type] ∧
    (processExerciseState gW 0 stC3 (some poseSquatMissing)).formCorrect = false ∧
    (processExerciseState gW 0 stC3 (some poseSquatMissing)).repCount = stC3.repCount ∧
    (processExerciseState gW 0 stC3 (some poseSquatMissing)).setCount = stC3.setCount ∧
    (processExerciseState gW 0 stC3 (some poseSquatMissing)).repState = stC3.repState :=
  exercise_missing_landmark gW 0 stC3 poseSquatMissing (by decide) (by decide)

/-- Closed instantiation of the C4 theorem at a squat frame completing a
rep. -/
theorem exercise_setCount_mono_witness :
    stC4.setCount ≤ (processExerciseState gW 0 stC4 (some (poseSquatOk 170))).setCount ∧
    (processExerciseState gW 0 stC4 (some (poseSquatOk 170))).setCount ≤
      (EXERCISES stC4.type).sets :=
  exercise_setCount_mono gW 0 stC4 (some (poseSquatOk 170)) (by decide)

/-- Closed instantiation of the C5 theorem at a squat frame completing a
rep from repCount 4. -/
theorem exercise_repCount_inv_witness :
    0 ≤ (processExerciseState gW 0 stC5 (some (poseSquatOk 170))).repCount ∧
    (processExerciseState gW 0 stC5 (some (poseSquatOk 170))).repCount ≤
      (EXERCISES stC5.type).targetReps - 1 ∧
    (processExerciseState gW 0 stC5 (some (poseSquatOk 170))).repCount ≤ stC5.repCount + 1 ∧
    ((processExerciseState gW 0 stC5 (some (poseSquatOk 170))).repCount = stC5.repCount ∨
     (processExerciseState gW 0 stC5 (some (poseSquatOk 170))).repCount = stC5.repCount + 1 ∨
     (processExerciseState gW 0 stC5 (some (poseSquatOk 170))).repCount = 0) :=
  exercise_repCount_inv gW 0 stC5 (some (poseSquatOk 170)) (by decide) (by decide)

/-- Closed instantiation of the C6 theorem, at 59 of 60 seconds of rest
(countdown reads 1s remaining) and at the inclusive 60-second boundary
(STARTING). -/
theorem resting_gate_witness :
    "Rest: 1s remaining" ∈
      (processExerciseState gW 59000 stC6 (some (poseSquatOk 170))).formFeedback ∧
    (processExerciseState gW 60000 stC6 (some (poseSquatOk 170))).repState =
      RepState.STARTING := by
  constructor
  · have h := resting_gate gW 59000 stC6 (poseSquatOk 170) (by decide) (by decide) (by decide)
    have hm := (h.2.2 (by decide)).2
    have hs : ("Rest: " ++
        toString (jsRound (((EXERCISES stC6.type).restBetweenSets : ℚ) -
          ((59000 : ℚ) - stC6.lastRepTimestamp) / 1000)) ++ "s remaining") =
        "Rest: 1s remaining" := by decide
    rw [hs] at hm
    exact hm
  · have h := resting_gate gW 60000 stC6 (poseSquatOk 170) (by decide) (by decide) (by decide)
    exact h.1.mpr (by decide)

/-- Closed instantiation of the C7 scenario with concrete poses whose
knee angles are 80, 170, 80, 170 under `gW`. -/
theorem squat_scenario_witness :
    (scenarioStep gW 1
        { type := ExerciseType.SQUAT, repCount := 0, setCount := 1, repState := RepState.UP,
          formFeedback := [], lastRepTimestamp := 0, formCorrect := true } (poseSquatOk 80)).repState =
      RepState.DOWN ∧
    (scenarioStep gW 2 (scenarioStep gW 1
        { type := ExerciseType.SQUAT, repCount := 0, setCount := 1, repState := RepState.UP,
          formFeedback := [], lastRepTimestamp := 0, formCorrect := true } (poseSquatOk 80))
        (poseSquatOk 170)).repState = RepState.UP ∧
    (scenarioStep gW 2 (scenarioStep gW 1
        { type := ExerciseType.SQUAT, repCount := 0, setCount := 1, repState := RepState.UP,
          formFeedback := [], lastRepTimestamp := 0, formCorrect := true } (poseSquatOk 80))
        (poseSquatOk 170)).repCount = 1 ∧
    (scenarioStep gW 4 (scenarioStep gW 3 (scenarioStep gW 2 (scenarioStep gW 1
        { type := ExerciseType.SQUAT, repCount := 0, setCount := 1, repState := RepState.UP,
          formFeedback := [], lastRepTimestamp := 0, formCorrect := true } (poseSquatOk 80))
        (poseSquatOk 170)) (poseSquatOk 80)) (poseSquatOk 170)).repCount = 0 ∧
    (scenarioStep gW 4 (scenarioStep gW 3 (scenarioStep gW 2 (scenarioStep gW 1
        { type := ExerciseType.SQUAT, repCount := 0, setCount := 1, repState := RepState.UP,
          formFeedback := [], lastRepTimestamp := 0, formCorrect := true } (poseSquatOk 80))
        (poseSquatOk 170)) (poseSquatOk 80)) (poseSquatOk 170)).setCount = 1 ∧
    (scenarioStep gW 4 (scenarioStep gW 3 (scenarioStep gW 2 (scenarioStep gW 1
        { type := ExerciseType.SQUAT, repCount := 0, setCount := 1, repState := RepState.UP,
          formFeedback := [], lastRepTimestamp := 0, formCorrect := true } (poseSquatOk 80))
        (poseSquatOk 170)) (poseSquatOk 80)) (poseSquatOk 170)).repState = RepState.RESTING ∧
    "Workout complete! Great job!" ∈
      (scenarioStep gW 4 (scenarioStep gW 3 (scenarioStep gW 2 (scenarioStep gW 1
        { type := ExerciseType.SQUAT, repCount := 0, setCount := 1, repState := RepState.UP,
          formFeedback := [], lastRepTimestamp := 0, formCorrect := true } (poseSquatOk 80))
        (poseSquatOk 170)) (poseSquatOk 80)) (poseSquatOk 170)).formFeedback :=
  squat_scenario gW 0 1 2 3 4 (poseSquatOk 80) (poseSquatOk 170) (poseSquatOk 80)
    (poseSquatOk 170)
    (kp 0 0) (kp 0 170) (kp 0 80) (kp 0 0) (kp 0 170) (kp 0 170)
    (kp 0 0) (kp 0 170) (kp 0 80) (kp 0 0) (kp 0 170) (kp 0 170)
    (by decide) (by decide) (by decide) (by decide) (by decide) (by decide)
    (by decide) (by decide) (by decide) (by decide) (by decide) (by decide)
    (by decide) (by decide) (by decide) (by decide)
    (by decide) (by decide) (by decide) (by decide)

/-- C8 as stated is false on the code: a state carrying
`formCorrect = false` mid-rep (UP) keeps repState UP on the very next call,
both for a clean present pose (formCorrect is reset to true at the start of
every call) and for an absent pose (which returns the state unchanged). -/
theorem stale_formCorrect_not_forced_counterexample :
    stC8cex.formCorrect = false ∧ stC8cex.repState = RepState.UP ∧
    (processExerciseState gW 0 stC8cex (some poseCurlOk)).repState = RepState.UP ∧
    (processExerciseState gW 0 stC8cex none).repState = RepState.UP := by decide

/-- Closed instantiation of the amended C8 theorem: a drifted-elbow curl
frame forces a DOWN state into INCORRECT_FORM. -/
theorem form_violation_mid_rep_forces_incorrect_witness :
    (processExerciseState gW 0 stC8 (some poseCurlDrift)).repState =
      RepState.INCORRECT_FORM :=
  form_violation_mid_rep_forces_incorrect gW 0 stC8 poseCurlDrift (by decide)
    (Or.inr (by decide)) (by decide) (by decide)

/-- Closed instantiation of the C10 theorem at a STARTING squat state. -/
theorem exercise_no_counting_witness :
    (processExerciseState gW 0 stC10 (some (poseSquatOk 80))).repState ≠
      RepState.COUNTING :=
  exercise_no_counting gW 0 stC10 (some (poseSquatOk 80)) (by decide)

end FitForm
